import Mathlib

/-!
Shallow embedding of the job-portal application core (data model,
GraphQL resolvers, HTTP route handlers for resume storage and email retry)
and theorems checking the natural-language specification against it.

Sources embedded:
- models.py                      : User, Job, Application tables and cascades
- graphql_api/resolvers/*.py     : application, user and job resolvers
- blueprints/jobs/routes.py      : apply_job
- blueprints/utils/routes.py     : serve_resume
- blueprints/admin/routes.py     : admin_delete_user, admin_update_application
- blueprints/main/routes.py      : contact (email retry loop)
- utils.py                       : allowed_file, upload_to_gcs
-/

namespace JobPortal

/-- File contents are modelled as byte lists. -/
abbrev Bytes := List Nat

/-- models.py User: id, username (non-unique), email, password hash, role
string, optional profile picture path. Timestamps irrelevant to the claims
are omitted. -/
structure User where
  id : Nat
  username : String
  email : String
  password : String
  role : String
  profile_picture : Option String
deriving Repr, DecidableEq

/-- models.py Job. `posted_date` is an abstract timestamp. -/
structure Job where
  id : Nat
  title : String
  description : String
  salary : Option String
  location : String
  category : String
  company : String
  company_logo : Option String
  posted_date : Nat
  poster_id : Nat
deriving Repr, DecidableEq

/-- models.py Application. `application_date` is an abstract timestamp. -/
structure Application where
  id : Nat
  job_id : Nat
  applicant_id : Nat
  application_date : Nat
  status : String
  resume_path : Option String
deriving Repr, DecidableEq

/-- The relational store: the three tables as lists of rows. -/
structure DB where
  users : List User
  jobs : List Job
  applications : List Application
deriving Repr, DecidableEq

/-- db.session.get(User, id) -/
def db_get_user (db : DB) (id : Nat) : Option User :=
  db.users.find? (fun u => u.id == id)

/-- db.session.get(Job, id) -/
def db_get_job (db : DB) (id : Nat) : Option Job :=
  db.jobs.find? (fun j => j.id == id)

/-- db.session.get(Application, id) -/
def db_get_application (db : DB) (id : Nat) : Option Application :=
  db.applications.find? (fun a => a.id == id)

/-- The Flask session as consumed by the resolvers and routes:
session.get('user_id') and session.get('role'). -/
structure Session where
  user_id : Option Nat
  role : Option String
deriving Repr, DecidableEq

/-- Payload shape of mutations returning an application plus errors. -/
structure ApplicationPayload where
  application : Option Application
  errors : List String
deriving Repr, DecidableEq

/-- Payload shape of delete mutations: success flag plus errors. -/
structure DeletePayload where
  success : Bool
  errors : List String
deriving Repr, DecidableEq

/-! ### application_resolvers.py -/

/-- Query resolver `application`: `return db.session.get(Application, id)`.
The source reads no session state; the session argument records that a
session may be present on the request but is not consulted. -/
def resolve_application (_sess : Session) (db : DB) (id : Nat) : Option Application :=
  db_get_application db id

/-- The whitelist in resolve_update_application_status
(application_resolvers.py line 137): note it contains `applied`. -/
def valid_statuses : List String :=
  ["applied", "pending", "reviewed", "rejected", "shortlisted", "hired"]

/-- Commit of the status assignment: rewrite the application row with the
given id, leaving every other row unchanged. -/
def set_application_status (db : DB) (id : Nat) (status : String) : DB :=
  { db with applications :=
      db.applications.map (fun a => if a.id == id then { a with status := status } else a) }

/-- The validate-then-set tail of resolve_update_application_status, reached
once the caller has been authorized. -/
def update_status_checked (db : DB) (application : Application) (status : String) :
    ApplicationPayload × DB :=
  if valid_statuses.contains status then
    let db2 := set_application_status db application.id status
    ({ application := some { application with status := status }, errors := [] }, db2)
  else
    ({ application := none,
       errors := ["Invalid status. Must be one of: applied, pending, reviewed, rejected, shortlisted, hired"] }, db)

/-- Mutation resolver updateApplicationStatus (application_resolvers.py
lines 116-147). The Python condition
`not user or (user.role != 'admin' and job.poster_id != user_id)`
short-circuits: when the user is an admin the job is never dereferenced;
otherwise a missing job raises AttributeError, which the handler catches,
rolls back and returns as an error string. -/
def resolve_update_application_status (sess : Session) (db : DB) (id : Nat) (status : String) :
    ApplicationPayload × DB :=
  match sess.user_id with
  | none => ({ application := none, errors := ["Authentication required"] }, db)
  | some user_id =>
    match db_get_application db id with
    | none => ({ application := none, errors := ["Application not found"] }, db)
    | some application =>
      match db_get_user db user_id with
      | none => ({ application := none, errors := ["Not authorized to update this application"] }, db)
      | some user =>
        if user.role == "admin" then
          update_status_checked db application status
        else
          match db_get_job db application.job_id with
          | none => ({ application := none,
                       errors := ["AttributeError: NoneType object has no attribute poster_id"] }, db)
          | some job =>
            if job.poster_id == user_id then
              update_status_checked db application status
            else
              ({ application := none, errors := ["Not authorized to update this application"] }, db)

/-- Input dict of the createApplication mutation. -/
structure CreateApplicationInput where
  jobId : Nat
  resumePath : Option String
deriving Repr, DecidableEq

/-- Primary-key allocation for a new Application row. -/
def next_application_id (db : DB) : Nat :=
  (db.applications.foldr (fun a m => max a.id m) 0) + 1

/-- Mutation resolver createApplication (application_resolvers.py
lines 68-114): requires a logged-in job seeker, an existing job, and no
prior application for the same (job, applicant) pair; the new row gets
status `applied`. -/
def resolve_create_application (sess : Session) (db : DB) (now : Nat)
    (input : CreateApplicationInput) : ApplicationPayload × DB :=
  match sess.user_id with
  | none => ({ application := none, errors := ["Authentication required"] }, db)
  | some user_id =>
    match db_get_user db user_id with
    | none => ({ application := none, errors := ["Only job seekers can apply for jobs"] }, db)
    | some user =>
      if user.role != "job_seeker" then
        ({ application := none, errors := ["Only job seekers can apply for jobs"] }, db)
      else
        match db_get_job db input.jobId with
        | none => ({ application := none, errors := ["Job not found"] }, db)
        | some _job =>
          match db.applications.find?
              (fun a => a.job_id == input.jobId && a.applicant_id == user_id) with
          | some _ => ({ application := none,
                         errors := ["You have already applied to this job"] }, db)
          | none =>
            let application : Application :=
              { id := next_application_id db
                job_id := input.jobId
                applicant_id := user_id
                application_date := now
                status := "applied"
                resume_path := input.resumePath }
            ({ application := some application, errors := [] },
             { db with applications := db.applications ++ [application] })

/-! ### user_resolvers.py -/

/-- Cascade semantics declared in models.py: User.jobs_posted and
User.applications both carry cascade all-delete-orphan, and each deleted Job
in turn cascades to its Applications. -/
def db_cascade_delete_user (db : DB) (uid : Nat) : DB :=
  let deleted_job_ids := (db.jobs.filter (fun j => j.poster_id == uid)).map (fun j => j.id)
  { users := db.users.filter (fun u => !(u.id == uid))
    jobs := db.jobs.filter (fun j => !(j.poster_id == uid))
    applications := db.applications.filter
      (fun a => !(a.applicant_id == uid) && !(deleted_job_ids.contains a.job_id)) }

/-- Mutation resolver deleteUser (user_resolvers.py lines 86-99):
`user = db.session.get(User, id); db.session.delete(user); commit`.
The source consults no session state whatsoever; the session argument is
carried to record that fact. -/
def resolve_delete_user (_sess : Session) (db : DB) (id : Nat) : DeletePayload × DB :=
  match db_get_user db id with
  | none => ({ success := false, errors := ["User not found"] }, db)
  | some user =>
    ({ success := true, errors := [] }, db_cascade_delete_user db user.id)

/-! ### job_resolvers.py -/

/-- Cascade declared on Job.applications in models.py (line 103):
deleting a Job deletes every Application whose job_id references it. -/
def db_cascade_delete_job (db : DB) (jid : Nat) : DB :=
  { db with jobs := db.jobs.filter (fun j => !(j.id == jid))
            applications := db.applications.filter (fun a => !(a.job_id == jid)) }

/-- Mutation resolver deleteJob (job_resolvers.py lines 114-136):
authentication, existence, then admin-or-poster authorization, then
`db.session.delete(job)` which cascades per models.py. -/
def resolve_delete_job (sess : Session) (db : DB) (id : Nat) : DeletePayload × DB :=
  match sess.user_id with
  | none => ({ success := false, errors := ["Authentication required"] }, db)
  | some user_id =>
    match db_get_job db id with
    | none => ({ success := false, errors := ["Job not found"] }, db)
    | some job =>
      match db_get_user db user_id with
      | none => ({ success := false, errors := ["Not authorized to delete this job"] }, db)
      | some user =>
        if user.role == "admin" || job.poster_id == user_id then
          ({ success := true, errors := [] }, db_cascade_delete_job db id)
        else
          ({ success := false, errors := ["Not authorized to delete this job"] }, db)

/-! ### utils.py and the resume storage backends -/

/-- An uploaded file as seen by the request handlers. -/
structure FileStorage where
  filename : String
  content : Bytes
deriving Repr, DecidableEq

/-- The configuration keys the resume paths read (config.py):
UPLOAD_FOLDER, ENABLE_GCS_UPLOAD, GCS_BUCKET_NAME. -/
structure Config where
  upload_folder : String
  enable_gcs_upload : Bool
  gcs_bucket_name : Option String
deriving Repr, DecidableEq

/-- The object-storage bucket: object name to bytes. -/
abbrev GCS := List (String × Bytes)

/-- blob.exists / download_as_bytes: look an object up by name. -/
def gcs_lookup (g : GCS) (k : String) : Option Bytes :=
  (g.find? (fun p => p.1 == k)).map (fun p => p.2)

/-- The local filesystem under the upload root: path to bytes. -/
abbrev LocalFS := List (String × Bytes)

/-- os.path.exists plus reading the file. -/
def fs_lookup (fs : LocalFS) (p : String) : Option Bytes :=
  (fs.find? (fun q => q.1 == p)).map (fun q => q.2)

/-- utils.py ALLOWED_RESUME_EXTENSIONS. -/
def ALLOWED_RESUME_EXTENSIONS : List String := ["pdf", "doc", "docx"]

/-- The characters after the last occurrence of a separator, or the whole
list when the separator is absent. -/
def after_last (sep : Char) (l : List Char) : List Char :=
  (l.reverse.takeWhile (fun c => c != sep)).reverse

/-- utils.py allowed_file: the filename has a dot and its lowercased final
extension (python rsplit by the last dot) is in the allow-list. -/
def allowed_file (filename : String) (allowed_extensions : List String) : Bool :=
  filename.data.contains '.' &&
    allowed_extensions.contains (String.mk ((after_last '.' filename.data).map Char.toLower))

/-- Remove a leading prefix string when present (str.removeprefix). -/
def dropPrefixStr (s p : String) : String :=
  if p.toList.isPrefixOf s.toList then String.mk (s.toList.drop p.toList.length) else s

/-- os.path.basename: the component after the last slash. -/
def basename (p : String) : String :=
  String.mk (after_last '/' p.data)

/-- utils.py upload_to_gcs (lines 50-92): refuse when the file or bucket is
missing or the extension is not allowed; otherwise store the bytes under
the object name resumes/user_id/sanitized-filename and return that name.
The sanitizer (werkzeug secure_filename, a third-party library) is passed
in as a function parameter. -/
def upload_to_gcs (secure_filename : String → String) (file_storage : Option FileStorage)
    (user_id : Nat) (gcs_bucket_name : Option String) (g : GCS) : Option String × GCS :=
  match file_storage, gcs_bucket_name with
  | none, _ => (none, g)
  | _, none => (none, g)
  | some fs, some _bucket =>
    if !(allowed_file fs.filename ALLOWED_RESUME_EXTENSIONS) then (none, g)
    else
      let filename := secure_filename fs.filename
      let gcs_object_name := "resumes/" ++ (toString user_id ++ "/" ++ filename)
      (some gcs_object_name, (gcs_object_name, fs.content) :: g)

/-! ### blueprints/jobs/routes.py : apply_job -/

/-- Observable outcome of the apply_job route (validated-POST path). -/
inductive ApplyOutcome
  | redirect_login
  | redirect_forbidden
  | not_found
  | already_applied
  | upload_failed
  | submitted (application : Application)
deriving Repr, DecidableEq

/-- Route apply_job (jobs/routes.py lines 117-214), POST path with a valid
form: guarded by login_required and role_required job_seeker; 404 on a
missing job; refuses a duplicate (job, applicant) application; when a
resume is supplied and GCS is enabled with a bucket configured, uploads it
and stores the object name with its leading resumes/ removed; when GCS is
disabled or unconfigured, the resume is silently not persisted and the
application row is still created with a null resume path. -/
def apply_job (secure_filename : String → String) (sess : Session) (cfg : Config)
    (db : DB) (g : GCS) (job_id : Nat) (resume_file : Option FileStorage) (now : Nat) :
    ApplyOutcome × DB × GCS :=
  match sess.user_id with
  | none => (.redirect_login, db, g)
  | some user_id =>
    if sess.role != some "job_seeker" then (.redirect_forbidden, db, g)
    else
      match db_get_job db job_id with
      | none => (.not_found, db, g)
      | some _job =>
        match db.applications.find?
            (fun a => a.job_id == job_id && a.applicant_id == user_id) with
        | some _ => (.already_applied, db, g)
        | none =>
          let submit (rp : Option String) (g2 : GCS) : ApplyOutcome × DB × GCS :=
            let application : Application :=
              { id := next_application_id db
                job_id := job_id
                applicant_id := user_id
                application_date := now
                status := "applied"
                resume_path := rp }
            (.submitted application,
             { db with applications := db.applications ++ [application] }, g2)
          match resume_file with
          | none => submit none g
          | some f =>
            match (if cfg.enable_gcs_upload then cfg.gcs_bucket_name else none) with
            | some bucket =>
              match upload_to_gcs secure_filename (some f) user_id (some bucket) g with
              | (some gcs_object_name, g2) =>
                submit (some (dropPrefixStr gcs_object_name "resumes/")) g2
              | (none, g2) => (.upload_failed, db, g2)
            | none =>
              -- GCS disabled or no bucket: logged warning, resume not saved
              submit none g

/-! ### blueprints/utils/routes.py : serve_resume -/

/-- Observable outcome of the serve_resume route. The internal_error (500)
constructor corresponds to the except branch around the GCS client calls;
the embedding models those calls as total lookups and never produces it. -/
inductive ServeResult
  | redirect_login
  | file (content : Bytes) (download_name : String)
  | forbidden
  | not_found
  | internal_error
deriving Repr, DecidableEq

/-- Whether a serve outcome is a 200 file response. -/
def ServeResult.is_file : ServeResult → Bool
  | .file _ _ => true
  | _ => false

/-- The serving tail of serve_resume (utils/routes.py lines 85-142),
reached after the permission checks pass: serve the local file at
upload_folder/suffix when present; otherwise, when GCS is enabled and a
bucket is configured, the object named resumes/suffix; otherwise 404. -/
def serve_resume_file_phase (cfg : Config) (localFS : LocalFS) (g : GCS)
    (cs_suffix : String) : ServeResult :=
  let gcs_object_name := "resumes/" ++ cs_suffix
  let expected_local_path := cfg.upload_folder ++ "/" ++ cs_suffix
  match fs_lookup localFS expected_local_path with
  | some content => .file content (basename cs_suffix)
  | none =>
    if cfg.enable_gcs_upload && cfg.gcs_bucket_name.isSome then
      match gcs_lookup g gcs_object_name with
      | some bytes => .file bytes (basename cs_suffix)
      | none => .not_found
    else .not_found

/-- Route serve_resume (utils/routes.py lines 19-142): guarded by
login_required; looks up the Application whose resume_path equals the
suffix (404 when none); admin passes, an employer must be the poster of
the referenced job, anyone else must be the applicant (else 403); then
the file-serving phase runs. -/
def serve_resume (sess : Session) (cfg : Config) (db : DB) (localFS : LocalFS)
    (g : GCS) (cs_suffix : String) : ServeResult :=
  match sess.user_id with
  | none => .redirect_login
  | some user_id =>
    match db.applications.find? (fun a => a.resume_path == some cs_suffix) with
    | none => .not_found
    | some application =>
      let permitted : Bool :=
        if sess.role == some "admin" then true
        else if sess.role == some "employer" then
          match db_get_job db application.job_id with
          | none => false
          | some job => job.poster_id == user_id
        else user_id == application.applicant_id
      if !permitted then .forbidden
      else serve_resume_file_phase cfg localFS g cs_suffix

/-! ### blueprints/main/routes.py : contact email retry loop -/

/-- What the retry loop in the contact route did: whether a send succeeded,
how many send attempts were made, and how many one-second sleeps ran. -/
structure ContactOutcome where
  success : Bool
  attempts : Nat
  sleeps : Nat
deriving Repr, DecidableEq

/-- max_retries = 3 in the contact route. -/
def max_retries : Nat := 3

/-- The body of the for-attempt loop (main/routes.py lines 117-132):
attempt the send; on success break; on the last failed attempt give up;
otherwise sleep one second and retry. `send i` tells whether attempt i
(0-based) succeeds. -/
def contact_retry_go (send : Nat → Bool) : Nat → Nat → ContactOutcome
  | _, 0 => { success := false, attempts := 0, sleeps := 0 }
  | i, fuel + 1 =>
    if send i then { success := true, attempts := 1, sleeps := 0 }
    else if i == max_retries - 1 then { success := false, attempts := 1, sleeps := 0 }
    else
      let r := contact_retry_go send (i + 1) fuel
      { success := r.success, attempts := r.attempts + 1, sleeps := r.sleeps + 1 }

/-- The contact-route email send with retries: up to max_retries attempts. -/
def contact_send_email (send : Nat → Bool) : ContactOutcome :=
  contact_retry_go send 0 max_retries

/-! ### blueprints/admin/routes.py : admin_delete_user -/

/-- Observable outcome of the admin delete-user route. -/
inductive AdminDeleteUserResult
  | redirect_login
  | redirect_forbidden
  | not_found
  | self_delete_refused
  | deleted
  | delete_error
deriving Repr, DecidableEq

/-- Route admin_delete_user (admin/routes.py lines 191-246): guarded by
login_required and role_required admin, looks up the target via
resolve_user, aborts 404 when absent, refuses self-deletion before any
deletion happens, and otherwise delegates to resolve_delete_user. -/
def admin_delete_user (sess : Session) (db : DB) (user_id : Nat) :
    AdminDeleteUserResult × DB :=
  match sess.user_id with
  | none => (.redirect_login, db)
  | some uid =>
    if sess.role != some "admin" then (.redirect_forbidden, db)
    else
      match db_get_user db user_id with
      | none => (.not_found, db)
      | some _user =>
        if user_id == uid then (.self_delete_refused, db)
        else
          let r := resolve_delete_user sess db user_id
          if r.1.success then (.deleted, r.2) else (.delete_error, r.2)

/-! ### blueprints/admin/routes.py : admin_update_application -/

/-- The strict whitelist of the admin route (admin/routes.py line 519):
unlike the resolver whitelist it does not contain applied. -/
def admin_valid_statuses : List String :=
  ["pending", "reviewed", "rejected", "shortlisted", "hired"]

/-- Observable outcome of the admin update-application route. -/
inductive AdminUpdateApplicationResult
  | redirect_login
  | redirect_forbidden
  | not_found
  | invalid_status
  | updated
  | update_error
deriving Repr, DecidableEq

/-- Route admin_update_application (admin/routes.py lines 484-543): guarded
by login_required and role_required admin; 404 when the application is
absent; rejects a missing or non-whitelisted form status before calling
resolve_update_application_status. -/
def admin_update_application (sess : Session) (db : DB) (application_id : Nat)
    (new_status : Option String) : AdminUpdateApplicationResult × DB :=
  match sess.user_id with
  | none => (.redirect_login, db)
  | some _uid =>
    if sess.role != some "admin" then (.redirect_forbidden, db)
    else
      match resolve_application sess db application_id with
      | none => (.not_found, db)
      | some _application =>
        match new_status with
        | none => (.invalid_status, db)
        | some s =>
          if !(admin_valid_statuses.contains s) then (.invalid_status, db)
          else
            let r := resolve_update_application_status sess db application_id s
            if r.1.application.isSome then (.updated, r.2) else (.update_error, r.2)

/-! ### Concrete fixtures used by counterexamples and witnesses -/

/-- A fixture admin user. -/
def alice_admin : User :=
  { id := 1, username := "alice", email := "alice@example.com", password := "h1"
    role := "admin", profile_picture := none }

/-- A fixture employer, poster of the fixture job. -/
def bob_employer : User :=
  { id := 2, username := "bob", email := "bob@example.com", password := "h2"
    role := "employer", profile_picture := none }

/-- A fixture job seeker, applicant of the fixture application. -/
def carol_seeker : User :=
  { id := 3, username := "carol", email := "carol@example.com", password := "h3"
    role := "job_seeker", profile_picture := none }

/-- A second fixture employer who posted nothing. -/
def dave_employer : User :=
  { id := 4, username := "dave", email := "dave@example.com", password := "h4"
    role := "employer", profile_picture := none }

/-- The fixture job, posted by bob. -/
def job_one : Job :=
  { id := 10, title := "Engineer", description := "Build things", salary := none
    location := "NY", category := "Tech", company := "Acme", company_logo := none
    posted_date := 0, poster_id := 2 }

/-- The fixture application: carol applied to job_one with a stored resume. -/
def app_one : Application :=
  { id := 20, job_id := 10, applicant_id := 3, application_date := 0
    status := "pending", resume_path := some "3/cv.pdf" }

/-- The fixture store. -/
def db_base : DB :=
  { users := [alice_admin, bob_employer, carol_seeker, dave_employer]
    jobs := [job_one], applications := [app_one] }

/-- Configuration with object storage enabled. -/
def cfg_gcs : Config :=
  { upload_folder := "static/resumes", enable_gcs_upload := true
    gcs_bucket_name := some "portal-bucket" }

/-- Configuration with object storage disabled. -/
def cfg_nogcs : Config :=
  { upload_folder := "static/resumes", enable_gcs_upload := false
    gcs_bucket_name := none }

/-- A local filesystem fixture holding the fixture resume bytes. -/
def local_fs_base : LocalFS := [("static/resumes/3/cv.pdf", [1, 2, 3])]

/-! ### Helper lemmas -/

/-- Rewriting the status of the row with a given id commutes with looking
that id up: the lookup after the rewrite returns the old row with its
status replaced. -/
theorem find?_map_set_status (l : List Application) (i : Nat) (s : String) :
    (l.map (fun a => if a.id == i then { a with status := s } else a)).find?
      (fun a => a.id == i)
      = (l.find? (fun a => a.id == i)).map (fun a => { a with status := s }) := by
  induction l with
  | nil => rfl
  | cons a t ih =>
    cases hb : (a.id == i) with
    | true => simp [List.find?, hb]
    | false =>
      simp [List.find?, hb, -List.find?_map] at ih ⊢
      exact ih

/-- Looking up an application id after set_application_status on that id. -/
theorem db_get_application_set_status (db : DB) (i : Nat) (s : String) :
    db_get_application (set_application_status db i s) i
      = (db_get_application db i).map (fun a => { a with status := s }) := by
  unfold db_get_application set_application_status
  exact find?_map_set_status db.applications i s

/-- A found application satisfies the id predicate. -/
theorem db_get_application_id {db : DB} {i : Nat} {a : Application}
    (h : db_get_application db i = some a) : a.id = i := by
  have := List.find?_some h
  simpa using this

/-- A found user satisfies the id predicate. -/
theorem db_get_user_id {db : DB} {i : Nat} {u : User}
    (h : db_get_user db i = some u) : u.id = i := by
  have := List.find?_some h
  simpa using this

/-- A list is a boolean prefix of itself followed by anything. -/
theorem isPrefixOf_self_append (l t : List Char) : l.isPrefixOf (l ++ t) = true := by
  induction l with
  | nil => simp
  | cons a l ih => simp [List.isPrefixOf_cons₂, ih]

/-- Removing a leading prefix undoes prepending it. -/
theorem dropPrefixStr_append (p s : String) : dropPrefixStr (p ++ s) p = s := by
  unfold dropPrefixStr
  have h1 : p.toList.isPrefixOf (p ++ s).toList = true := by
    show p.data.isPrefixOf (p.data ++ s.data) = true
    exact isPrefixOf_self_append p.data s.data
  rw [if_pos h1]
  show String.mk ((p.data ++ s.data).drop p.data.length) = s
  rw [List.drop_left]

/-! ### Claim theorems -/

/-- C10: the application(id) GraphQL query returns the stored Application
record for every existing id and every caller, performing no
authentication or authorization check: the result does not depend on the
session at all. -/
theorem application_query_returns_record_unguarded
    (sess : Session) (db : DB) (id : Nat) (app : Application)
    (h : db_get_application db id = some app) :
    resolve_application sess db id = some app
    ∧ (∀ sess2 : Session, resolve_application sess2 db id = resolve_application sess db id) :=
  ⟨h, fun _ => rfl⟩

/-- C10 witness: the fixture application is returned to a caller with no
session principal at all. -/
theorem application_query_returns_record_unguarded_witness :
    resolve_application { user_id := none, role := none } db_base 20 = some app_one :=
  (application_query_returns_record_unguarded
    { user_id := none, role := none } db_base 20 app_one (by decide)).1

/-- C6: the deleteUser GraphQL resolver performs no authentication, role or
self-deletion check: for every session state (including an empty session
and an admin targeting their own id) it deletes any existing user and
reports success, and its result does not depend on the session. -/
theorem delete_user_resolver_unguarded
    (sess : Session) (db : DB) (id : Nat) (user : User)
    (huser : db_get_user db id = some user) :
    (resolve_delete_user sess db id).1 = { success := true, errors := [] }
    ∧ db_get_user (resolve_delete_user sess db id).2 id = none
    ∧ (∀ sess2 : Session, resolve_delete_user sess2 db id = resolve_delete_user sess db id) := by
  refine ⟨?_, ?_, fun _ => rfl⟩
  · simp [resolve_delete_user, huser]
  · have hid : user.id = id := db_get_user_id huser
    have h2 : (resolve_delete_user sess db id).2 = db_cascade_delete_user db id := by
      simp [resolve_delete_user, huser, hid]
    rw [h2]
    simp only [db_get_user, db_cascade_delete_user]
    apply List.find?_eq_none.mpr
    intro u hu
    have hu2 := (List.mem_filter.mp hu).2
    simp only [Bool.not_eq_true'] at hu2
    simp [hu2]

/-- C6 witness: with an admin logged in and targeting their own id, the
resolver still deletes the account and reports success. -/
theorem delete_user_resolver_unguarded_witness :
    (resolve_delete_user { user_id := some 1, role := some "admin" } db_base 1).1
        = { success := true, errors := [] }
    ∧ db_get_user (resolve_delete_user { user_id := some 1, role := some "admin" } db_base 1).2 1
        = none :=
  ⟨(delete_user_resolver_unguarded { user_id := some 1, role := some "admin" }
      db_base 1 alice_admin (by decide)).1,
   (delete_user_resolver_unguarded { user_id := some 1, role := some "admin" }
      db_base 1 alice_admin (by decide)).2.1⟩

/-- C5: through the admin HTTP route, an admin request to delete the
admin's own account is refused before any deletion and the account is
still present afterwards. -/
theorem admin_self_delete_refused (sess : Session) (db : DB) (uid : Nat) (user : User)
    (hu : sess.user_id = some uid) (hr : sess.role = some "admin")
    (huser : db_get_user db uid = some user) :
    admin_delete_user sess db uid = (.self_delete_refused, db)
    ∧ db_get_user (admin_delete_user sess db uid).2 uid = some user := by
  have h1 : admin_delete_user sess db uid = (.self_delete_refused, db) := by
    simp [admin_delete_user, hu, hr, huser]
  exact ⟨h1, by rw [h1]; exact huser⟩

/-- C5 witness: the fixture admin cannot delete their own account and the
row survives. -/
theorem admin_self_delete_refused_witness :
    admin_delete_user { user_id := some 1, role := some "admin" } db_base 1
        = (.self_delete_refused, db_base)
    ∧ db_get_user (admin_delete_user { user_id := some 1, role := some "admin" } db_base 1).2 1
        = some alice_admin :=
  admin_self_delete_refused { user_id := some 1, role := some "admin" }
    db_base 1 alice_admin rfl rfl (by decide)

/-- C7: a successful deleteJob removes the job and, in the same operation,
every Application referencing it: no orphan Application remains, and
applications of other jobs survive. -/
theorem delete_job_cascades_applications (sess : Session) (db : DB) (id uid : Nat)
    (user : User) (job : Job)
    (hu : sess.user_id = some uid)
    (hjob : db_get_job db id = some job)
    (huser : db_get_user db uid = some user)
    (hauth : user.role = "admin" ∨ job.poster_id = uid) :
    (resolve_delete_job sess db id).1 = { success := true, errors := [] }
    ∧ db_get_job (resolve_delete_job sess db id).2 id = none
    ∧ (∀ a ∈ (resolve_delete_job sess db id).2.applications, a.job_id ≠ id)
    ∧ (∀ a ∈ db.applications, a.job_id ≠ id →
        a ∈ (resolve_delete_job sess db id).2.applications) := by
  have hcond : (user.role == "admin" || job.poster_id == uid) = true := by
    rcases hauth with h | h <;> simp [h]
  have h2 : resolve_delete_job sess db id
      = ({ success := true, errors := [] }, db_cascade_delete_job db id) := by
    simp [resolve_delete_job, hu, hjob, huser, hcond]
  refine ⟨by rw [h2], ?_, ?_, ?_⟩
  · rw [h2]
    simp only [db_get_job, db_cascade_delete_job]
    apply List.find?_eq_none.mpr
    intro j hj
    have hj2 := (List.mem_filter.mp hj).2
    simp only [Bool.not_eq_true'] at hj2
    simp [hj2]
  · rw [h2]
    simp only [db_cascade_delete_job]
    intro a ha
    have ha2 := (List.mem_filter.mp ha).2
    simp only [Bool.not_eq_true'] at ha2
    simpa using ha2
  · rw [h2]
    simp only [db_cascade_delete_job]
    intro a ha hne
    exact List.mem_filter.mpr ⟨ha, by simp [hne]⟩

/-- C7 witness: the admin deletes the fixture job; the fixture application
referencing it is gone. -/
theorem delete_job_cascades_applications_witness :
    (resolve_delete_job { user_id := some 1, role := some "admin" } db_base 10).1
        = { success := true, errors := [] }
    ∧ (∀ a ∈ (resolve_delete_job { user_id := some 1, role := some "admin" } db_base 10).2.applications,
        a.job_id ≠ 10) :=
  ⟨(delete_job_cascades_applications { user_id := some 1, role := some "admin" }
      db_base 10 1 alice_admin job_one rfl (by decide) (by decide) (Or.inl rfl)).1,
   (delete_job_cascades_applications { user_id := some 1, role := some "admin" }
      db_base 10 1 alice_admin job_one rfl (by decide) (by decide) (Or.inl rfl)).2.2.1⟩

/-- A fixture store with the fixture job but no applications yet. -/
def db_apply : DB :=
  { users := [bob_employer, carol_seeker], jobs := [job_one], applications := [] }

/-- C8: submitting an application with a resume file while object storage
is disabled (or no bucket is configured) creates the Application row with
a null resume reference, returns no error to the caller, and persists
nothing to object storage. -/
theorem apply_without_gcs_creates_null_resume
    (sf : String → String) (sess : Session) (cfg : Config) (db : DB) (g : GCS)
    (job_id : Nat) (f : FileStorage) (now uid : Nat)
    (hu : sess.user_id = some uid) (hr : sess.role = some "job_seeker")
    (hjob : (db_get_job db job_id).isSome = true)
    (hnodup : db.applications.find?
        (fun a => a.job_id == job_id && a.applicant_id == uid) = none)
    (hdisabled : cfg.enable_gcs_upload = false ∨ cfg.gcs_bucket_name = none) :
    apply_job sf sess cfg db g job_id (some f) now =
      (.submitted { id := next_application_id db, job_id := job_id, applicant_id := uid
                    application_date := now, status := "applied", resume_path := none },
       { db with applications := db.applications ++
           [{ id := next_application_id db, job_id := job_id, applicant_id := uid
              application_date := now, status := "applied", resume_path := none }] },
       g) := by
  obtain ⟨j, hj⟩ := Option.isSome_iff_exists.mp hjob
  have hsel : (if cfg.enable_gcs_upload then cfg.gcs_bucket_name else none) = none := by
    rcases hdisabled with h | h <;> simp [h]
  simp [apply_job, hu, hr, hj, hnodup, hsel]

/-- C8 witness: with object storage disabled, the fixture job seeker
applies with a resume file; the row is created with a null resume path
and the object store stays empty. -/
theorem apply_without_gcs_creates_null_resume_witness :
    apply_job (fun s => s) { user_id := some 3, role := some "job_seeker" }
        cfg_nogcs db_apply [] 10 (some { filename := "cv.pdf", content := [9, 9] }) 0
      = (.submitted { id := 1, job_id := 10, applicant_id := 3, application_date := 0
                      status := "applied", resume_path := none },
         { db_apply with applications :=
             [{ id := 1, job_id := 10, applicant_id := 3, application_date := 0
                status := "applied", resume_path := none }] },
         []) := by
  rw [apply_without_gcs_creates_null_resume (fun s => s)
      { user_id := some 3, role := some "job_seeker" } cfg_nogcs db_apply [] 10
      { filename := "cv.pdf", content := [9, 9] } 0 3 rfl rfl (by decide) rfl
      (Or.inl rfl)]
  decide

/-- C9: the contact-email retry loop makes up to three attempts with a
one-second sleep after each failed non-final attempt; a success stops it
immediately, and if all three attempts fail it gives up after exactly
three attempts and two sleeps and reports failure. -/
theorem contact_email_retry_spec (send : Nat → Bool) :
    ((∀ k, k < max_retries → send k = false) →
        contact_send_email send = { success := false, attempts := 3, sleeps := 2 })
    ∧ (∀ k, k < max_retries → send k = true → (∀ j, j < k → send j = false) →
        contact_send_email send
          = { success := true, attempts := k + 1, sleeps := k }) := by
  constructor
  · intro hall
    have h0 := hall 0 (by norm_num [max_retries])
    have h1 := hall 1 (by norm_num [max_retries])
    have h2 := hall 2 (by norm_num [max_retries])
    simp [contact_send_email, contact_retry_go, max_retries, h0, h1, h2]
  · intro k hk hs hprev
    have hk3 : k < 3 := by simpa [max_retries] using hk
    interval_cases k
    · simp [contact_send_email, contact_retry_go, max_retries, hs]
    · have h0 := hprev 0 (by norm_num)
      simp [contact_send_email, contact_retry_go, max_retries, h0, hs]
    · have h0 := hprev 0 (by norm_num)
      have h1 := hprev 1 (by norm_num)
      simp [contact_send_email, contact_retry_go, max_retries, h0, h1, hs]

/-- C9 witness: with a send that fails once then succeeds, the loop stops
after two attempts and one sleep and reports success. -/
theorem contact_email_retry_spec_witness :
    contact_send_email (fun k => decide (k = 1))
      = { success := true, attempts := 2, sleeps := 1 } :=
  (contact_email_retry_spec (fun k => decide (k = 1))).2 1 (by norm_num [max_retries])
    (by decide) (fun j hj => by interval_cases j; decide)

/-- C1 counterexample: the updateApplicationStatus mutation ACCEPTS the
value applied. An admin sets the fixture application (status pending)
to applied: no error is returned and the stored status becomes applied,
contradicting the claim that applied is rejected with the status
unchanged. -/
theorem update_status_accepts_applied_counterexample :
    (resolve_update_application_status { user_id := some 1, role := some "admin" }
        db_base 20 "applied").1.errors = []
    ∧ (db_get_application
        (resolve_update_application_status { user_id := some 1, role := some "admin" }
          db_base 20 "applied").2 20).map (fun a => a.status) = some "applied" := by
  constructor <;> decide

/-- C1 (amended): for an existing application whose job is live and an
authenticated caller present in the user table, updateApplicationStatus
succeeds iff the requested status is one of applied, pending, reviewed,
rejected, shortlisted, hired AND the caller is an admin or the poster of
the referenced job; on success the stored status becomes the requested
value, and on failure the store is unchanged. -/
theorem update_status_whitelist_and_authz (sess : Session) (db : DB) (id : Nat)
    (status : String) (uid : Nat) (app : Application) (user : User) (job : Job)
    (hsess : sess.user_id = some uid)
    (happ : db_get_application db id = some app)
    (huser : db_get_user db uid = some user)
    (hjob : db_get_job db app.job_id = some job) :
    ((resolve_update_application_status sess db id status).1.errors = [] ↔
      (status ∈ valid_statuses ∧ (user.role = "admin" ∨ job.poster_id = uid)))
    ∧ ((resolve_update_application_status sess db id status).1.errors = [] →
        (db_get_application (resolve_update_application_status sess db id status).2 id).map
          (fun a => a.status) = some status)
    ∧ ((resolve_update_application_status sess db id status).1.errors ≠ [] →
        (resolve_update_application_status sess db id status).2 = db) := by
  have hid : app.id = id := db_get_application_id happ
  by_cases hadmin : user.role = "admin"
  · by_cases hvalid : status ∈ valid_statuses
    · have hres : resolve_update_application_status sess db id status
          = ({ application := some { app with status := status }, errors := [] },
             set_application_status db app.id status) := by
        simp [resolve_update_application_status, hsess, happ, huser, hadmin,
              update_status_checked, hvalid]
      refine ⟨?_, ?_, ?_⟩
      · rw [hres]; simp [hvalid, hadmin]
      · intro _
        rw [hres]
        simp only
        rw [hid, db_get_application_set_status, happ]
        rfl
      · intro hne; rw [hres] at hne; simp at hne
    · have hres : resolve_update_application_status sess db id status
          = ({ application := none,
               errors := ["Invalid status. Must be one of: applied, pending, reviewed, rejected, shortlisted, hired"] },
             db) := by
        simp [resolve_update_application_status, hsess, happ, huser, hadmin,
              update_status_checked, hvalid]
      refine ⟨?_, ?_, ?_⟩
      · rw [hres]; simp [hvalid]
      · intro hc; rw [hres] at hc; simp at hc
      · intro _; rw [hres]
  · by_cases hposter : job.poster_id = uid
    · by_cases hvalid : status ∈ valid_statuses
      · have hres : resolve_update_application_status sess db id status
            = ({ application := some { app with status := status }, errors := [] },
               set_application_status db app.id status) := by
          simp [resolve_update_application_status, hsess, happ, huser, hadmin, hjob,
                update_status_checked, hvalid, hposter]
        refine ⟨?_, ?_, ?_⟩
        · rw [hres]; simp [hvalid, hposter]
        · intro _
          rw [hres]
          simp only
          rw [hid, db_get_application_set_status, happ]
          rfl
        · intro hne; rw [hres] at hne; simp at hne
      · have hres : resolve_update_application_status sess db id status
            = ({ application := none,
                 errors := ["Invalid status. Must be one of: applied, pending, reviewed, rejected, shortlisted, hired"] },
               db) := by
          simp [resolve_update_application_status, hsess, happ, huser, hadmin, hjob,
                update_status_checked, hvalid, hposter]
        refine ⟨?_, ?_, ?_⟩
        · rw [hres]; simp [hvalid]
        · intro hc; rw [hres] at hc; simp at hc
        · intro _; rw [hres]
    · have hres : resolve_update_application_status sess db id status
          = ({ application := none,
               errors := ["Not authorized to update this application"] }, db) := by
        simp [resolve_update_application_status, hsess, happ, huser, hadmin, hjob, hposter]
      refine ⟨?_, ?_, ?_⟩
      · rw [hres]; simp [hadmin, hposter]
      · intro hc; rw [hres] at hc; simp at hc
      · intro _; rw [hres]

/-- C1 witness: the posting employer sets the fixture application to
reviewed; the success condition of the amended claim evaluates as stated. -/
theorem update_status_whitelist_and_authz_witness :
    ((resolve_update_application_status { user_id := some 2, role := some "employer" }
        db_base 20 "reviewed").1.errors = [] ↔
      ("reviewed" ∈ valid_statuses
        ∧ (bob_employer.role = "admin" ∨ job_one.poster_id = 2))) :=
  (update_status_whitelist_and_authz { user_id := some 2, role := some "employer" }
    db_base 20 "reviewed" 2 app_one bob_employer job_one rfl (by decide) (by decide)
    (by decide)).1

/-- C4: when an Application already exists for a (job, applicant) pair, a
second create attempt for the same pair is refused with the duplicate
error and leaves the store (in particular the first Application)
untouched, through the createApplication resolver and equally through the
apply_job route. -/
theorem duplicate_application_conflict (sess : Session) (db : DB) (now : Nat)
    (input : CreateApplicationInput) (uid : Nat) (user : User) (app0 : Application)
    (hu : sess.user_id = some uid)
    (huser : db_get_user db uid = some user) (hrole : user.role = "job_seeker")
    (hjob : (db_get_job db input.jobId).isSome = true)
    (hmem : app0 ∈ db.applications) (h0j : app0.job_id = input.jobId)
    (h0a : app0.applicant_id = uid) :
    (resolve_create_application sess db now input).1.application = none
    ∧ (resolve_create_application sess db now input).1.errors
        = ["You have already applied to this job"]
    ∧ (resolve_create_application sess db now input).2 = db
    ∧ (∀ (sf : String → String) (cfg : Config) (g : GCS) (rf : Option FileStorage),
        sess.role = some "job_seeker" →
        apply_job sf sess cfg db g input.jobId rf now = (.already_applied, db, g)) := by
  obtain ⟨j, hj⟩ := Option.isSome_iff_exists.mp hjob
  have hfind : (db.applications.find?
      (fun a => a.job_id == input.jobId && a.applicant_id == uid)).isSome = true :=
    List.find?_isSome.mpr ⟨app0, hmem, by simp [h0j, h0a]⟩
  obtain ⟨a0, ha0⟩ := Option.isSome_iff_exists.mp hfind
  have hres : resolve_create_application sess db now input
      = ({ application := none, errors := ["You have already applied to this job"] }, db) := by
    simp [resolve_create_application, hu, huser, hrole, hj, ha0]
  refine ⟨by rw [hres], by rw [hres], by rw [hres], ?_⟩
  intro sf cfg g rf hrole2
  simp [apply_job, hu, hrole2, hj, ha0]

/-- C4 witness: carol, who already applied to the fixture job, attempts a
second application; it is refused and the store is unchanged. -/
theorem duplicate_application_conflict_witness :
    (resolve_create_application { user_id := some 3, role := some "job_seeker" }
        db_base 0 { jobId := 10, resumePath := none }).1.application = none
    ∧ (resolve_create_application { user_id := some 3, role := some "job_seeker" }
        db_base 0 { jobId := 10, resumePath := none }).1.errors
        = ["You have already applied to this job"]
    ∧ (resolve_create_application { user_id := some 3, role := some "job_seeker" }
        db_base 0 { jobId := 10, resumePath := none }).2 = db_base :=
  ⟨(duplicate_application_conflict { user_id := some 3, role := some "job_seeker" }
      db_base 0 { jobId := 10, resumePath := none } 3 carol_seeker app_one rfl
      (by decide) rfl (by decide) (by decide) rfl rfl).1,
   (duplicate_application_conflict { user_id := some 3, role := some "job_seeker" }
      db_base 0 { jobId := 10, resumePath := none } 3 carol_seeker app_one rfl
      (by decide) rfl (by decide) (by decide) rfl rfl).2.1,
   (duplicate_application_conflict { user_id := some 3, role := some "job_seeker" }
      db_base 0 { jobId := 10, resumePath := none } 3 carol_seeker app_one rfl
      (by decide) rfl (by decide) (by decide) rfl rfl).2.2.1⟩

/-- The file-serving phase never produces a 403: the permission decision
happens strictly before it. -/
theorem file_phase_ne_forbidden (cfg : Config) (localFS : LocalFS) (g : GCS)
    (s : String) : serve_resume_file_phase cfg localFS g s ≠ .forbidden := by
  simp only [serve_resume_file_phase]
  split
  · simp
  · split
    · split <;> simp
    · simp

/-- When the file is present locally, or object storage is enabled with a
bucket and holds the object, the file-serving phase returns a file. -/
theorem file_phase_is_file_of_avail (cfg : Config) (localFS : LocalFS) (g : GCS)
    (s : String)
    (h : (fs_lookup localFS (cfg.upload_folder ++ "/" ++ s)).isSome = true
      ∨ (cfg.enable_gcs_upload = true ∧ cfg.gcs_bucket_name.isSome = true
          ∧ (gcs_lookup g ("resumes/" ++ s)).isSome = true)) :
    (serve_resume_file_phase cfg localFS g s).is_file = true := by
  simp only [serve_resume_file_phase]
  cases hl : fs_lookup localFS (cfg.upload_folder ++ "/" ++ s) with
  | some c => simp [ServeResult.is_file]
  | none =>
    rcases h with h1 | ⟨he, hb, hg⟩
    · rw [hl] at h1; simp at h1
    · obtain ⟨bytes, hbytes⟩ := Option.isSome_iff_exists.mp hg
      simp [he, hb, hbytes, ServeResult.is_file]

/-- C2: for an authenticated principal with one of the three roles, when a
stored Application matches the requested suffix (with its job live, and
the invariant that a caller who owns the Application is a job seeker),
serve_resume returns the file exactly for an admin, the posting employer,
or the owning applicant — availability of the bytes given — and returns
403 exactly for every other principal regardless of availability; when no
Application matches the suffix it returns 404 for every principal. -/
theorem serve_resume_access_policy (sess : Session) (cfg : Config) (db : DB)
    (localFS : LocalFS) (g : GCS) (cs_suffix : String) (uid : Nat) (role : String)
    (hu : sess.user_id = some uid) (hr : sess.role = some role)
    (hroles : role = "admin" ∨ role = "employer" ∨ role = "job_seeker") :
    (∀ app job,
      db.applications.find? (fun a => a.resume_path == some cs_suffix) = some app →
      db_get_job db app.job_id = some job →
      (uid = app.applicant_id → role = "job_seeker") →
      (((fs_lookup localFS (cfg.upload_folder ++ "/" ++ cs_suffix)).isSome = true
          ∨ (cfg.enable_gcs_upload = true ∧ cfg.gcs_bucket_name.isSome = true
              ∧ (gcs_lookup g ("resumes/" ++ cs_suffix)).isSome = true)) →
        ((serve_resume sess cfg db localFS g cs_suffix).is_file = true ↔
          (role = "admin" ∨ (role = "employer" ∧ job.poster_id = uid)
            ∨ uid = app.applicant_id)))
      ∧ ((serve_resume sess cfg db localFS g cs_suffix = .forbidden) ↔
          ¬ (role = "admin" ∨ (role = "employer" ∧ job.poster_id = uid)
              ∨ uid = app.applicant_id)))
    ∧ (db.applications.find? (fun a => a.resume_path == some cs_suffix) = none →
        serve_resume sess cfg db localFS g cs_suffix = .not_found) := by
  constructor
  · intro app job hfind hjob howner
    rcases hroles with hrole | hrole | hrole
    · subst hrole
      have hperm : serve_resume sess cfg db localFS g cs_suffix
          = serve_resume_file_phase cfg localFS g cs_suffix := by
        simp [serve_resume, hu, hr, hfind]
      constructor
      · intro havail
        rw [hperm]
        exact iff_of_true (file_phase_is_file_of_avail cfg localFS g cs_suffix havail)
          (Or.inl rfl)
      · rw [hperm]
        exact iff_of_false (file_phase_ne_forbidden cfg localFS g cs_suffix)
          (fun hn => hn (Or.inl rfl))
    · subst hrole
      by_cases hposter : job.poster_id = uid
      · have hperm : serve_resume sess cfg db localFS g cs_suffix
            = serve_resume_file_phase cfg localFS g cs_suffix := by
          simp [serve_resume, hu, hr, hfind, hjob, hposter]
        constructor
        · intro havail
          rw [hperm]
          exact iff_of_true (file_phase_is_file_of_avail cfg localFS g cs_suffix havail)
            (Or.inr (Or.inl ⟨rfl, hposter⟩))
        · rw [hperm]
          exact iff_of_false (file_phase_ne_forbidden cfg localFS g cs_suffix)
            (fun hn => hn (Or.inr (Or.inl ⟨rfl, hposter⟩)))
      · have hperm : serve_resume sess cfg db localFS g cs_suffix = .forbidden := by
          simp [serve_resume, hu, hr, hfind, hjob, hposter]
        have hnallow : ¬ (("employer" : String) = "admin"
            ∨ (("employer" : String) = "employer" ∧ job.poster_id = uid)
            ∨ uid = app.applicant_id) := by
          rintro (h | ⟨_, h⟩ | h)
          · exact absurd h (by decide)
          · exact hposter h
          · exact absurd (howner h) (by decide)
        constructor
        · intro _
          rw [hperm]
          exact iff_of_false (by simp [ServeResult.is_file]) hnallow
        · rw [hperm]
          exact iff_of_true rfl hnallow
    · subst hrole
      by_cases happl : uid = app.applicant_id
      · have hperm : serve_resume sess cfg db localFS g cs_suffix
            = serve_resume_file_phase cfg localFS g cs_suffix := by
          simp [serve_resume, hu, hr, hfind, happl]
        constructor
        · intro havail
          rw [hperm]
          exact iff_of_true (file_phase_is_file_of_avail cfg localFS g cs_suffix havail)
            (Or.inr (Or.inr happl))
        · rw [hperm]
          exact iff_of_false (file_phase_ne_forbidden cfg localFS g cs_suffix)
            (fun hn => hn (Or.inr (Or.inr happl)))
      · have hperm : serve_resume sess cfg db localFS g cs_suffix = .forbidden := by
          simp [serve_resume, hu, hr, hfind, happl]
        have hnallow : ¬ (("job_seeker" : String) = "admin"
            ∨ (("job_seeker" : String) = "employer" ∧ job.poster_id = uid)
            ∨ uid = app.applicant_id) := by
          rintro (h | ⟨h, _⟩ | h)
          · exact absurd h (by decide)
          · exact absurd h (by decide)
          · exact happl h
        constructor
        · intro _
          rw [hperm]
          exact iff_of_false (by simp [ServeResult.is_file]) hnallow
        · rw [hperm]
          exact iff_of_true rfl hnallow
  · intro hnone
    simp [serve_resume, hu, hnone]

/-- C2 witness: the admin fetches the fixture resume, which is present on
the local filesystem: the outcome is a 200 file response. -/
theorem serve_resume_access_policy_witness :
    (serve_resume { user_id := some 1, role := some "admin" } cfg_gcs db_base
        local_fs_base [] "3/cv.pdf").is_file = true := by
  have h := (serve_resume_access_policy { user_id := some 1, role := some "admin" }
      cfg_gcs db_base local_fs_base [] "3/cv.pdf" 1 "admin" rfl rfl
      (Or.inl rfl)).1 app_one job_one (by decide) (by decide)
      (fun hcon => absurd hcon (by decide))
  exact (h.1 (Or.inl (by decide))).mpr (Or.inl rfl)

/-- C3: a job seeker uploads a resume with an allowed extension while
applying (object storage enabled): the application stores the suffix
uid/sanitized-filename, the object store gains the key
resumes/uid/sanitized-filename with the uploaded bytes, and serving that
suffix returns the uploaded bytes both when the local upload root holds
them at that suffix and when the local file is absent and only the object
store holds the key. -/
theorem resume_roundtrip (sf : String → String) (sess : Session) (cfg : Config)
    (db : DB) (g : GCS) (job_id : Nat) (f : FileStorage) (now uid : Nat)
    (hu : sess.user_id = some uid) (hr : sess.role = some "job_seeker")
    (hjob : (db_get_job db job_id).isSome = true)
    (hnodup : db.applications.find?
        (fun a => a.job_id == job_id && a.applicant_id == uid) = none)
    (hext : allowed_file f.filename ALLOWED_RESUME_EXTENSIONS = true)
    (hgcs : cfg.enable_gcs_upload = true)
    (hbucket : cfg.gcs_bucket_name.isSome = true)
    (hfresh : ∀ a ∈ db.applications,
        a.resume_path ≠ some (toString uid ++ "/" ++ sf f.filename)) :
    apply_job sf sess cfg db g job_id (some f) now
      = (.submitted
          { id := next_application_id db, job_id := job_id, applicant_id := uid
            application_date := now, status := "applied"
            resume_path := some (toString uid ++ "/" ++ sf f.filename) },
         { db with applications := db.applications ++
             [{ id := next_application_id db, job_id := job_id, applicant_id := uid
                application_date := now, status := "applied"
                resume_path := some (toString uid ++ "/" ++ sf f.filename) }] },
         ("resumes/" ++ (toString uid ++ "/" ++ sf f.filename), f.content) :: g)
    ∧ (∀ localFS : LocalFS,
        fs_lookup localFS
            (cfg.upload_folder ++ "/" ++ (toString uid ++ "/" ++ sf f.filename))
          = some f.content →
        serve_resume sess cfg
            { db with applications := db.applications ++
                [{ id := next_application_id db, job_id := job_id, applicant_id := uid
                   application_date := now, status := "applied"
                   resume_path := some (toString uid ++ "/" ++ sf f.filename) }] }
            localFS
            (("resumes/" ++ (toString uid ++ "/" ++ sf f.filename), f.content) :: g)
            (toString uid ++ "/" ++ sf f.filename)
          = .file f.content (basename (toString uid ++ "/" ++ sf f.filename)))
    ∧ (∀ localFS : LocalFS,
        fs_lookup localFS
            (cfg.upload_folder ++ "/" ++ (toString uid ++ "/" ++ sf f.filename))
          = none →
        serve_resume sess cfg
            { db with applications := db.applications ++
                [{ id := next_application_id db, job_id := job_id, applicant_id := uid
                   application_date := now, status := "applied"
                   resume_path := some (toString uid ++ "/" ++ sf f.filename) }] }
            localFS
            (("resumes/" ++ (toString uid ++ "/" ++ sf f.filename), f.content) :: g)
            (toString uid ++ "/" ++ sf f.filename)
          = .file f.content (basename (toString uid ++ "/" ++ sf f.filename))) := by
  obtain ⟨j, hj⟩ := Option.isSome_iff_exists.mp hjob
  obtain ⟨b, hb⟩ := Option.isSome_iff_exists.mp hbucket
  have hfindnew :
      ({ db with applications := db.applications ++
          [{ id := next_application_id db, job_id := job_id, applicant_id := uid
             application_date := now, status := "applied"
             resume_path := some (toString uid ++ "/" ++ sf f.filename) }] } : DB).applications.find?
        (fun a => a.resume_path == some (toString uid ++ "/" ++ sf f.filename))
      = some { id := next_application_id db, job_id := job_id, applicant_id := uid
               application_date := now, status := "applied"
               resume_path := some (toString uid ++ "/" ++ sf f.filename) } := by
    have h1 : db.applications.find?
        (fun a => a.resume_path == some (toString uid ++ "/" ++ sf f.filename)) = none :=
      List.find?_eq_none.mpr (fun a ha => by simp [hfresh a ha])
    simp [List.find?_append, h1, List.find?]
  refine ⟨?_, ?_, ?_⟩
  · simp [apply_job, hu, hr, hj, hnodup, hgcs, hb, upload_to_gcs, hext,
          dropPrefixStr_append]
  · intro localFS hl
    simp [serve_resume, hu, hr, hfindnew, serve_resume_file_phase, hl]
  · intro localFS hl
    simp [serve_resume, hu, hr, hfindnew, serve_resume_file_phase, hl, hgcs, hb,
          gcs_lookup, List.find?]

/-- C3 witness: carol uploads a two-byte resume while applying to the
fixture job with object storage enabled; with no local copy present, the
serve route streams the identical bytes back from the object store. -/
theorem resume_roundtrip_witness :
    serve_resume { user_id := some 3, role := some "job_seeker" } cfg_gcs
        { db_apply with applications := db_apply.applications ++
            [{ id := next_application_id db_apply, job_id := 10, applicant_id := 3
               application_date := 0, status := "applied"
               resume_path := some (toString 3 ++ "/" ++ (fun s : String => s) "cv.pdf") }] }
        []
        (("resumes/" ++ (toString 3 ++ "/" ++ (fun s : String => s) "cv.pdf"),
            ([7, 8, 9] : Bytes)) :: [])
        (toString 3 ++ "/" ++ (fun s : String => s) "cv.pdf")
      = .file [7, 8, 9] (basename (toString 3 ++ "/" ++ (fun s : String => s) "cv.pdf")) :=
  (resume_roundtrip (fun s => s) { user_id := some 3, role := some "job_seeker" }
    cfg_gcs db_apply [] 10 { filename := "cv.pdf", content := [7, 8, 9] } 0 3
    rfl rfl (by decide) rfl (by decide) rfl rfl
    (fun a ha => absurd ha (by simp [db_apply]))).2.2 [] rfl

end JobPortal
